import Mathlib

/-!
# euank/eval: the sandboxed evaluation service

A shallow embedding of `main.go` and `session.go`.

The Go code talks to three collaborators: the Docker client (create, start,
attach, stop), the hijacked connection with its demultiplexer
(`stdcopy.StdCopy`), and the request context.  Their answers are not computed
by the program, so they are inputs of the model: a `World` records, for one
request, what every collaborator call answers and which case the `select` of
`Run` takes.  Every function of the source becomes a function from such
answers to its Go return value together with the list of effects it performed,
in program order.
-/

namespace Eval

/-! ## Data model -/

/-- Content of a `bytes.Buffer`, and of the Go string made of it: one entry per byte. -/
abbrev Bytes := List Nat

/-- Go `error` values, represented by their message. -/
abbrev GoError := String

/-- The struct `RunResponse` of `session.go`. -/
structure RunResponse where
  Stdout : Bytes
  Stderr : Bytes
  Timeout : Bool
deriving DecidableEq, Repr

/-- The struct `pythonEnv` of `session.go`: its only field is the container id. -/
structure pythonEnv where
  dockerID : String
deriving DecidableEq, Repr

/-- The struct `evalRequest` of `main.go`. -/
structure evalRequest where
  Key : String
  Env : String
  Contents : String
deriving DecidableEq, Repr

/-- The constant `pythonImage`. -/
def pythonImage : String := "euank/python:3.6"

/-- The two destinations `stdcopy.StdCopy` writes to. -/
inductive StdType where
  | Stdout
  | Stderr
deriving DecidableEq, Repr

/-- Effects performed by the program, in the order the code performs them. -/
inductive Event where
  /-- Call of `client.NewClientWithOpts`. -/
  | newClient
  /-- Call of `cli.ContainerCreate` for an image. -/
  | containerCreate (image : String)
  /-- Call of `cli.ContainerStart`. -/
  | containerStart (id : String)
  /-- Call of `cli.ContainerAttach`. -/
  | containerAttach (id : String)
  /-- Call of `cli.ContainerStop`, with its grace period in seconds. -/
  | containerStop (id : String) (graceSeconds : Nat)
  /-- The `go func()` statement that starts the drain task (`StdCopy`, then a send on `copyErr`). -/
  | goDrain
  /-- Call of `io.Copy(hj.Conn, strings.NewReader(body))`. -/
  | connWrite (body : String)
  /-- Call of `hj.CloseWrite()`. -/
  | closeWrite
  /-- A receive from the channel `copyErr`, with the value received. -/
  | recvCopyErr (err : Option GoError)
  /-- The `select` took the case `<-ctx.Done()`. -/
  | ctxDone
  /-- Call of `hj.Close()`. -/
  | hjClose
  /-- Call of `log15.Error`. -/
  | logError (msg : String) (err : GoError)
  /-- Call of `log15.Debug`. -/
  | logDebug (msg : String)
  /-- Call of `context.WithTimeout(req.Context(), n*time.Second)`. -/
  | withTimeout (seconds : Nat)
  /-- The deferred `cancel()`. -/
  | cancel
  /-- The handler calls `startEnv`. -/
  | callStartEnv (name : String)
  /-- The handler calls `env.Run` on the unit with this id. -/
  | callRun (id : String) (body : String)
  /-- The deferred `go env.Cleanup()` on the unit with this id. -/
  | goCleanup (id : String)
  /-- Call of `writeError(rw, status, body)`. -/
  | writeError (status : Nat) (body : String)
  /-- Call of `json.NewEncoder(rw).Encode` on the response. -/
  | encodeResponse (resp : RunResponse)
deriving DecidableEq, Repr

/-- A Go call that returns `(value, error)`: every `return` of the source is
either `nil, err` or `v, nil`, so the pair is an `Except`; `trace` lists the
effects of the call. -/
structure Exec (α : Type) where
  result : Except GoError α
  trace : List Event

/-! ## Collaborator answers -/

/-- Answers met by `newPythonEnv`: `none` is a nil error. -/
structure ProvWorld where
  client : Option GoError
  create : Except GoError String
  start : Option GoError
deriving Repr

/-- Which case the `select` of `Run` takes. -/
inductive Selected where
  | copyErr
  | ctxDone
deriving DecidableEq, Repr

/-- Answers met by `pythonEnv.Run`.  `frames` are the writes `StdCopy` makes,
in order, until it returns `drainErr`; `selected` is the case the `select`
takes when it is reached. -/
structure RunWorld where
  client : Option GoError
  attach : Option GoError
  write : Option GoError
  closeWrite : Option GoError
  frames : List (StdType × Bytes)
  drainErr : Option GoError
  selected : Selected
deriving Repr

/-- Answers met by `pythonEnv.Cleanup`. -/
structure CleanupWorld where
  client : Option GoError
  stop : Option GoError
deriving Repr

/-- All collaborator answers of one request. -/
structure World where
  prov : ProvWorld
  run : RunWorld
  cleanup : CleanupWorld
deriving Repr

/-! ## session.go -/

/-- The effect of `stdcopy.StdCopy(&stdout, &stderr, hj.Reader)` on the two
buffers: every frame is appended to the buffer of its stream
(`bytes.Buffer.Write` appends). -/
def StdCopy (dstout dsterr : Bytes) : List (StdType × Bytes) → Bytes × Bytes
  | [] => (dstout, dsterr)
  | (StdType.Stdout, p) :: fs => StdCopy (dstout ++ p) dsterr fs
  | (StdType.Stderr, p) :: fs => StdCopy dstout (dsterr ++ p) fs

/-- The function `newPythonEnv`. -/
def newPythonEnv (w : ProvWorld) : Exec pythonEnv :=
  match w.client with
  | some err =>
    { result := .error "error connecting to docker to eval python"
      trace := [.newClient, .logError "docker client error" err] }
  | none =>
    match w.create with
    | .error err =>
      { result := .error ("error creating python container: " ++ err)
        trace := [.newClient, .containerCreate pythonImage,
                  .logError "docker create error" err] }
    | .ok id =>
      let env : pythonEnv := { dockerID := id }
      match w.start with
      | some err =>
        { result := .error ("error starting python container: " ++ err)
          trace := [.newClient, .containerCreate pythonImage, .containerStart id,
                    .logError "docker start error" err] }
      | none =>
        { result := .ok env
          trace := [.newClient, .containerCreate pythonImage, .containerStart id] }

/-- The function `startEnv`: the `switch` on the name. -/
def startEnv (w : ProvWorld) (name : String) : Exec pythonEnv :=
  if name = "python" ∨ name = "py" then
    newPythonEnv w
  else
    { result := .error ("invalid environment: " ++ name), trace := [] }

/-- The effects of `hj.CloseWrite()` and of the log call guarded by its error. -/
def closeWriteTrace (cw : Option GoError) : List Event :=
  match cw with
  | some err => [.closeWrite, .logError "could not close writer" err]
  | none => [.closeWrite]

/-- The method `pythonEnv.Run`. -/
def Run (e : pythonEnv) (w : RunWorld) (body : String) : Exec RunResponse :=
  match w.client with
  | some err =>
    { result := .error "error getting docker client to run command"
      trace := [.newClient, .logError "docker client error" err] }
  | none =>
    match w.attach with
    | some err =>
      { result := .error "error attaching to container"
        trace := [.newClient, .containerAttach e.dockerID,
                  .logError "docker attach error" err] }
    | none =>
      let attached : List Event := [.newClient, .containerAttach e.dockerID, .goDrain]
      match w.write with
      | some err =>
        { result := .error ("error writing program to container: " ++ err)
          trace := attached ++ [.connWrite body] }
      | none =>
        let written : List Event :=
          attached ++ [.connWrite body] ++ closeWriteTrace w.closeWrite ++
            [.logDebug "copied in body; waiting for response"]
        let bufs := StdCopy [] [] w.frames
        match w.selected with
        | .copyErr =>
          match w.drainErr with
          | some err =>
            { result := .error err
              trace := written ++ [.recvCopyErr (some err)] }
          | none =>
            { result := .ok { Timeout := false, Stdout := bufs.1, Stderr := bufs.2 }
              trace := written ++ [.recvCopyErr none] }
        | .ctxDone =>
          { result := .ok { Timeout := true, Stdout := bufs.1, Stderr := bufs.2 }
            trace := written ++ [.ctxDone, .hjClose, .recvCopyErr w.drainErr] }

/-- The method `pythonEnv.Cleanup`; the grace period is `5 * time.Second`. -/
def Cleanup (e : pythonEnv) (w : CleanupWorld) : List Event :=
  match w.client with
  | some err => [.newClient, .logError "docker client error" err]
  | none =>
    match w.stop with
    | some err =>
      [.newClient, .containerStop e.dockerID 5, .logError "docker client stop error" err]
    | none => [.newClient, .containerStop e.dockerID 5]

/-! ## main.go -/

/-- The request handler passed to `http.ListenAndServe`.  `decoded` is the
result of `json.NewDecoder(req.Body).Decode(&e)`.  The deferred calls run when
the handler returns, last registered first; the steps of the goroutine started
by `go env.Cleanup()` are listed after the handler's own. -/
def handler (psk : String) (decoded : Except GoError evalRequest) (w : World) :
    List Event :=
  match decoded with
  | .error _ => [.writeError 400 "could not decode request as valid json"]
  | .ok e =>
    if e.Key ≠ psk then
      [.writeError 401 "permission denied; invalid key"]
    else
      let s := startEnv w.prov e.Env
      match s.result with
      | .error err =>
        [.withTimeout 20, .callStartEnv e.Env] ++ s.trace ++
          [.writeError 400 ("unable to start environment: " ++ err), .cancel]
      | .ok env =>
        let r := Run env w.run e.Contents
        let deferred : List Event :=
          [.goCleanup env.dockerID, .cancel] ++ Cleanup env w.cleanup
        match r.result with
        | .error err =>
          [.withTimeout 20, .callStartEnv e.Env] ++ s.trace ++
            [.callRun env.dockerID e.Contents] ++ r.trace ++
            [.writeError 400 ("error running code: " ++ err)] ++ deferred
        | .ok resp =>
          [.withTimeout 20, .callStartEnv e.Env] ++ s.trace ++
            [.callRun env.dockerID e.Contents] ++ r.trace ++
            [.encodeResponse resp] ++ deferred

/-- The function `main`: without `EVAL_PSK` the process exits in `log.Fatalf`; otherwise
every request is served by `handler`. -/
def main (psk : String) (decoded : Except GoError evalRequest) (w : World) :
    Except GoError (List Event) :=
  if psk = "" then
    .error "must set the EVAL_PSK environment variable to a preshared secret"
  else
    .ok (handler psk decoded w)

/-- Two calls of `Run` on the same instance, one after the other.  `Run` has
a pointer receiver but assigns to no field of `e`, so the second call meets
the same `pythonEnv`; `w₁` and `w₂` are the collaborator answers of the two
calls. -/
def runTwice (e : pythonEnv) (w₁ w₂ : RunWorld) (b₁ b₂ : String) :
    Exec RunResponse × Exec RunResponse :=
  (Run e w₁ b₁, Run e w₂ b₂)

/-! ## Observations on traces -/

/-- The bytes delivered to one stream: the payloads of the frames of that
stream, in the order of delivery. -/
def delivered (t : StdType) : List (StdType × Bytes) → Bytes
  | [] => []
  | (s, p) :: fs => if s = t then p ++ delivered t fs else delivered t fs

/-- The two signals `Run` waits for: the completion of the drain task, with
the error it reports, and the deadline or cancellation of the context. -/
inductive Signal where
  | drain (err : Option GoError)
  | deadline
deriving DecidableEq, Repr

/-- The signal a run took first, if it took any. -/
def firstSignal : List Event → Option Signal
  | [] => none
  | .recvCopyErr err :: _ => some (.drain err)
  | .ctxDone :: _ => some .deadline
  | _ :: t => firstSignal t

/-- Whether the drain task was started. -/
def drainLaunched (t : List Event) : Bool :=
  t.any fun ev => match ev with
    | .goDrain => true
    | _ => false

/-- Whether the send of the drain task on `copyErr` was received. -/
def drainJoined (t : List Event) : Bool :=
  t.any fun ev => match ev with
    | .recvCopyErr _ => true
    | _ => false

/-- Whether an event is the start of a `Cleanup`. -/
def isGoCleanup : Event → Bool
  | .goCleanup _ => true
  | _ => false

/-- Whether an event is a provider `Stop`. -/
def isContainerStop : Event → Bool
  | .containerStop _ _ => true
  | _ => false

/-- Whether an event is a call of the Docker client. -/
def isProviderCall : Event → Bool
  | .newClient => true
  | .containerCreate _ => true
  | .containerStart _ => true
  | .containerAttach _ => true
  | .containerStop _ _ => true
  | _ => false

/-- Number of `Cleanup` calls in a trace. -/
def cleanupCalls (t : List Event) : Nat := (t.filter isGoCleanup).length

/-- Number of provider `Stop` calls in a trace. -/
def stopCalls (t : List Event) : Nat := (t.filter isContainerStop).length

/-- Number of calls of `Run` in a trace. -/
def runCalls (t : List Event) : Nat :=
  (t.filter fun ev => match ev with
    | .callRun _ _ => true
    | _ => false).length

/-! ## Sample collaborator answers -/

/-- A provider that creates and starts the unit `c1`. -/
def provOk : ProvWorld := { client := none, create := .ok "c1", start := none }

/-- A provider that creates the unit `c1` and then fails to start it. -/
def provStartFails : ProvWorld :=
  { client := none, create := .ok "c1", start := some "no such image" }

/-- A provider that fails to create a unit. -/
def provCreateFails : ProvWorld :=
  { client := none, create := .error "daemon unreachable", start := none }

/-- A run that prints `hi` and a newline on stdout, `!` on stderr, and ends
before the deadline. -/
def runHi : RunWorld :=
  { client := none, attach := none, write := none, closeWrite := none,
    frames := [(.Stdout, [104, 105]), (.Stderr, [33]), (.Stdout, [10])],
    drainErr := none, selected := .copyErr }

/-- A run whose drain task reports a stream error before the deadline. -/
def runDrainFails : RunWorld :=
  { runHi with frames := [(.Stdout, [104])], drainErr := some "unexpected EOF" }

/-- A run cut by the deadline after `h` reached stdout; the forced close makes
the drain task report an error. -/
def runDeadline : RunWorld :=
  { runHi with frames := [(.Stdout, [104])],
               drainErr := some "use of closed network connection",
               selected := .ctxDone }

/-- A run in which writing the body fails while the drain task has already
finished reading. -/
def runWriteFails : RunWorld :=
  { runHi with write := some "broken pipe" }

/-- A cleanup that reaches the provider and stops the unit. -/
def cleanupOk : CleanupWorld := { client := none, stop := none }

/-- A cleanup that cannot obtain a provider client. -/
def cleanupNoClient : CleanupWorld :=
  { client := some "invalid DOCKER_HOST", stop := none }

/-- An authenticated request for the python environment. -/
def reqHi : evalRequest := { Key := "s3cret", Env := "python", Contents := "print(1)" }

/-! ## Lemmas -/

theorem StdCopy_eq_delivered (frames : List (StdType × Bytes)) (a b : Bytes) :
    StdCopy a b frames =
      (a ++ delivered .Stdout frames, b ++ delivered .Stderr frames) := by
  induction frames generalizing a b with
  | nil => simp [StdCopy, delivered]
  | cons f fs ih =>
    obtain ⟨s, p⟩ := f
    cases s <;> simp [StdCopy, delivered, ih]

theorem firstSignal_append_of_free (t u : List Event)
    (h : firstSignal t = none) : firstSignal (t ++ u) = firstSignal u := by
  induction t with
  | nil => rfl
  | cons ev t ih =>
    cases ev <;> simp_all [firstSignal]

theorem firstSignal_closeWriteTrace (cw : Option GoError) :
    firstSignal (closeWriteTrace cw) = none := by
  cases cw <;> rfl

/-- The signal taken first by a run, from the collaborator answers: a run
reaches the `select` exactly when client, attach and write succeed. -/
theorem firstSignal_Run (e : pythonEnv) (w : RunWorld) (body : String) :
    firstSignal (Run e w body).trace =
      match w.client, w.attach, w.write with
      | none, none, none =>
        (match w.selected with
          | .copyErr => some (.drain w.drainErr)
          | .ctxDone => some .deadline)
      | _, _, _ => none := by
  obtain ⟨c, a, wr, cw, fr, de, sel⟩ := w
  cases c <;> cases a <;> cases wr <;> cases cw <;> cases sel <;> cases de <;>
    simp [Run, firstSignal, closeWriteTrace]

theorem Run_trace_no_cleanup (e : pythonEnv) (w : RunWorld) (body : String) :
    (Run e w body).trace.filter isGoCleanup = [] ∧
    (Run e w body).trace.filter isContainerStop = [] ∧
    runCalls (Run e w body).trace = 0 := by
  obtain ⟨c, a, wr, cw, fr, de, sel⟩ := w
  cases c <;> cases a <;> cases wr <;> cases cw <;> cases sel <;> cases de <;>
    simp [Run, closeWriteTrace, isGoCleanup, isContainerStop, runCalls]

theorem newPythonEnv_trace_no_cleanup (w : ProvWorld) :
    (newPythonEnv w).trace.filter isGoCleanup = [] ∧
    (newPythonEnv w).trace.filter isContainerStop = [] ∧
    runCalls (newPythonEnv w).trace = 0 := by
  obtain ⟨c, cr, st⟩ := w
  cases c <;> cases cr <;> cases st <;>
    simp [newPythonEnv, isGoCleanup, isContainerStop, runCalls]

theorem startEnv_trace_no_cleanup (w : ProvWorld) (name : String) :
    (startEnv w name).trace.filter isGoCleanup = [] ∧
    (startEnv w name).trace.filter isContainerStop = [] ∧
    runCalls (startEnv w name).trace = 0 := by
  unfold startEnv
  split
  · exact newPythonEnv_trace_no_cleanup w
  · simp [runCalls]

theorem Cleanup_trace (e : pythonEnv) (w : CleanupWorld) :
    (Cleanup e w).filter isGoCleanup = [] ∧
    runCalls (Cleanup e w) = 0 ∧
    ((Cleanup e w).filter isContainerStop).length ≤ 1 ∧
    (w.client = none →
      (Cleanup e w).filter isContainerStop = [.containerStop e.dockerID 5]) := by
  obtain ⟨c, st⟩ := w
  cases c <;> cases st <;> simp [Cleanup, isGoCleanup, isContainerStop, runCalls]

/-- Without a provider client `Cleanup` logs the error and returns. -/
theorem Cleanup_no_client (e : pythonEnv) (w : CleanupWorld) (err : GoError)
    (h : w.client = some err) :
    Cleanup e w = [.newClient, .logError "docker client error" err] := by
  obtain ⟨c, st⟩ := w
  simp only at h
  subst h
  rfl

/-- After the write has succeeded, every return of `Run` comes after a receive
from `copyErr`. -/
theorem Run_joins_drain_after_write (e : pythonEnv) (w : RunWorld) (body : String)
    (hl : drainLaunched (Run e w body).trace = true) (hw : w.write = none) :
    drainJoined (Run e w body).trace = true := by
  obtain ⟨c, a, wr, cw, fr, de, sel⟩ := w
  cases c <;> cases a <;> cases wr <;> cases cw <;> cases sel <;> cases de <;>
    simp_all [Run, closeWriteTrace, drainLaunched, drainJoined]

theorem handler_wrong_key (psk : String) (rq : evalRequest) (w : World)
    (hk : rq.Key ≠ psk) :
    handler psk (.ok rq) w = [.writeError 401 "permission denied; invalid key"] := by
  unfold handler
  simp only [ne_eq, hk, not_false_eq_true, if_true]

theorem handler_startEnv_error (psk : String) (rq : evalRequest) (w : World)
    (err : GoError) (hk : rq.Key = psk)
    (hs : (startEnv w.prov rq.Env).result = .error err) :
    handler psk (.ok rq) w =
      [.withTimeout 20, .callStartEnv rq.Env] ++ (startEnv w.prov rq.Env).trace ++
        [.writeError 400 ("unable to start environment: " ++ err), .cancel] := by
  unfold handler
  simp only [ne_eq, hk, not_true_eq_false, if_false, hs]

theorem handler_Run_error (psk : String) (rq : evalRequest) (w : World)
    (env : pythonEnv) (err : GoError) (hk : rq.Key = psk)
    (hs : (startEnv w.prov rq.Env).result = .ok env)
    (hr : (Run env w.run rq.Contents).result = .error err) :
    handler psk (.ok rq) w =
      [.withTimeout 20, .callStartEnv rq.Env] ++ (startEnv w.prov rq.Env).trace ++
        [.callRun env.dockerID rq.Contents] ++ (Run env w.run rq.Contents).trace ++
        [.writeError 400 ("error running code: " ++ err)] ++
        ([.goCleanup env.dockerID, .cancel] ++ Cleanup env w.cleanup) := by
  unfold handler
  simp only [ne_eq, hk, not_true_eq_false, if_false, hs, hr]

theorem handler_Run_ok (psk : String) (rq : evalRequest) (w : World)
    (env : pythonEnv) (resp : RunResponse) (hk : rq.Key = psk)
    (hs : (startEnv w.prov rq.Env).result = .ok env)
    (hr : (Run env w.run rq.Contents).result = .ok resp) :
    handler psk (.ok rq) w =
      [.withTimeout 20, .callStartEnv rq.Env] ++ (startEnv w.prov rq.Env).trace ++
        [.callRun env.dockerID rq.Contents] ++ (Run env w.run rq.Contents).trace ++
        [.encodeResponse resp] ++
        ([.goCleanup env.dockerID, .cancel] ++ Cleanup env w.cleanup) := by
  unfold handler
  simp only [ne_eq, hk, not_true_eq_false, if_false, hs, hr]

/-- When `startEnv` returns an environment, the name is registered and the
environment wraps the unit the provider created and started. -/
theorem startEnv_ok (w : ProvWorld) (name : String) (env : pythonEnv)
    (h : (startEnv w name).result = .ok env) :
    (name = "python" ∨ name = "py") ∧ w.client = none ∧
      w.create = .ok env.dockerID ∧ w.start = none := by
  obtain ⟨c, cr, st⟩ := w
  unfold startEnv at h
  split at h
  · rename_i hn
    refine ⟨hn, ?_⟩
    cases c <;> cases cr <;> cases st <;> simp [newPythonEnv] at h ⊢
    simp [← h]
  · simp at h

/-! ## The claims -/

/-- C1. Whenever `Run` returns a `RunResponse`, its `Timeout` field is true
if and only if the signal of the context was the one the run took first, and
false if and only if the completion signal of the drain task was taken first;
the signal taken first is the case `selected` of the `select`. -/
theorem Run_Timeout_iff_deadline_first (e : pythonEnv) (w : RunWorld) (body : String)
    (resp : RunResponse) (h : (Run e w body).result = .ok resp) :
    (resp.Timeout = true ↔ firstSignal (Run e w body).trace = some .deadline) ∧
    (resp.Timeout = false ↔
      ∃ err, firstSignal (Run e w body).trace = some (.drain err)) ∧
    (resp.Timeout = true ↔ w.selected = .ctxDone) ∧
    (resp.Timeout = false ↔ w.selected = .copyErr) := by
  obtain ⟨c, a, wr, cw, fr, de, sel⟩ := w
  cases c <;> cases a <;> cases wr <;> cases cw <;> cases sel <;> cases de <;>
    simp [Run, closeWriteTrace, firstSignal] at h ⊢ <;> simp [← h]

theorem Run_Timeout_iff_deadline_first_witness :
    (Run ⟨"c1"⟩ runDeadline "while True: pass").result = .ok ⟨[104], [], true⟩ ∧
    ((true = true ↔
        firstSignal (Run ⟨"c1"⟩ runDeadline "while True: pass").trace = some .deadline) ∧
      (true = false ↔
        ∃ err, firstSignal (Run ⟨"c1"⟩ runDeadline "while True: pass").trace =
          some (.drain err)) ∧
      (true = true ↔ runDeadline.selected = .ctxDone) ∧
      (true = false ↔ runDeadline.selected = .copyErr)) :=
  ⟨rfl, Run_Timeout_iff_deadline_first ⟨"c1"⟩ runDeadline "while True: pass"
    ⟨[104], [], true⟩ rfl⟩

/-- C2. For every body, if the drain task completes without error before the
deadline (the first signal the run takes is the completion of the drain task,
carrying a nil error), `Run` returns no error and a `RunResponse` with
`Timeout = false` whose `Stdout` is exactly the bytes delivered to the stdout
buffer and whose `Stderr` is exactly the bytes delivered to the stderr buffer. -/
theorem Run_drain_completes_first (e : pythonEnv) (w : RunWorld) (body : String)
    (h : firstSignal (Run e w body).trace = some (.drain none)) :
    (Run e w body).result =
      .ok { Stdout := delivered .Stdout w.frames,
            Stderr := delivered .Stderr w.frames,
            Timeout := false } := by
  obtain ⟨c, a, wr, cw, fr, de, sel⟩ := w
  cases c <;> cases a <;> cases wr <;> cases cw <;> cases sel <;> cases de <;>
    simp [Run, closeWriteTrace, firstSignal] at h ⊢ <;>
    simp [StdCopy_eq_delivered]

theorem Run_drain_completes_first_witness :
    firstSignal (Run ⟨"c1"⟩ runHi "print(1)").trace = some (.drain none) ∧
    (Run ⟨"c1"⟩ runHi "print(1)").result =
      .ok { Stdout := delivered .Stdout runHi.frames,
            Stderr := delivered .Stderr runHi.frames,
            Timeout := false } :=
  ⟨by decide, Run_drain_completes_first ⟨"c1"⟩ runHi "print(1)" (by decide)⟩

/-- C3. A timeout is not an error: in every run whose first signal is the
deadline, `Run` closes the attached connection, then receives the completion
signal of the drain task, then returns a nil error and a response with
`Timeout = true` carrying the bytes delivered to the two buffers up to that
receive, whatever value the drain task reports. -/
theorem Run_deadline_first (e : pythonEnv) (w : RunWorld) (body : String)
    (h : firstSignal (Run e w body).trace = some .deadline) :
    (Run e w body).result =
      .ok { Stdout := delivered .Stdout w.frames,
            Stderr := delivered .Stderr w.frames,
            Timeout := true } ∧
    (Run e w body).trace =
      [.newClient, .containerAttach e.dockerID, .goDrain, .connWrite body] ++
        closeWriteTrace w.closeWrite ++
        [.logDebug "copied in body; waiting for response",
         .ctxDone, .hjClose, .recvCopyErr w.drainErr] := by
  obtain ⟨c, a, wr, cw, fr, de, sel⟩ := w
  cases c <;> cases a <;> cases wr <;> cases cw <;> cases sel <;> cases de <;>
    simp [Run, closeWriteTrace, firstSignal] at h ⊢ <;>
    simp [StdCopy_eq_delivered]

theorem Run_deadline_first_witness :
    firstSignal (Run ⟨"c1"⟩ runDeadline "while True: pass").trace = some .deadline ∧
    ((Run ⟨"c1"⟩ runDeadline "while True: pass").result =
      .ok { Stdout := delivered .Stdout runDeadline.frames,
            Stderr := delivered .Stderr runDeadline.frames,
            Timeout := true } ∧
    (Run ⟨"c1"⟩ runDeadline "while True: pass").trace =
      [.newClient, .containerAttach "c1", .goDrain, .connWrite "while True: pass"] ++
        closeWriteTrace runDeadline.closeWrite ++
        [.logDebug "copied in body; waiting for response",
         .ctxDone, .hjClose, .recvCopyErr runDeadline.drainErr]) :=
  ⟨by decide, Run_deadline_first ⟨"c1"⟩ runDeadline "while True: pass" (by decide)⟩

/-- C4. For every body, if the write of the body to the input stream of the
unit is attempted and fails, `Run` returns the write error and no
`RunResponse`, whichever case the `select` would have taken and whatever the
drain task has done; the run ends at the write. -/
theorem Run_write_fails (e : pythonEnv) (w : RunWorld) (body : String) (err : GoError)
    (hw : Event.connWrite body ∈ (Run e w body).trace) (hf : w.write = some err) :
    (Run e w body).result = .error ("error writing program to container: " ++ err) ∧
    (∀ resp, (Run e w body).result ≠ .ok resp) ∧
    (Run e w body).trace =
      [.newClient, .containerAttach e.dockerID, .goDrain, .connWrite body] := by
  obtain ⟨c, a, wr, cw, fr, de, sel⟩ := w
  cases c <;> cases a <;> cases wr <;>
    simp_all [Run]

theorem Run_write_fails_witness :
    (Event.connWrite "print(1)" ∈ (Run ⟨"c1"⟩ runWriteFails "print(1)").trace ∧
      runWriteFails.write = some "broken pipe") ∧
    ((Run ⟨"c1"⟩ runWriteFails "print(1)").result =
        .error ("error writing program to container: " ++ "broken pipe") ∧
      (∀ resp, (Run ⟨"c1"⟩ runWriteFails "print(1)").result ≠ .ok resp) ∧
      (Run ⟨"c1"⟩ runWriteFails "print(1)").trace =
        [.newClient, .containerAttach "c1", .goDrain, .connWrite "print(1)"]) :=
  ⟨⟨by decide, rfl⟩,
    Run_write_fails ⟨"c1"⟩ runWriteFails "print(1)" "broken pipe" (by decide) rfl⟩

/-- C9. In every run whose first signal is the completion of the drain task,
`Run` returns the error that signal carries and no `RunResponse` when the
error is not nil, and a `RunResponse` with a nil error when it is nil. -/
theorem Run_drain_first (e : pythonEnv) (w : RunWorld) (body : String)
    (d : Option GoError) (h : firstSignal (Run e w body).trace = some (.drain d)) :
    (∀ err, d = some err → (Run e w body).result = .error err) ∧
    (d = none → ∃ resp, (Run e w body).result = .ok resp) := by
  obtain ⟨c, a, wr, cw, fr, de, sel⟩ := w
  cases c <;> cases a <;> cases wr <;> cases cw <;> cases sel <;> cases de <;>
    simp [Run, closeWriteTrace, firstSignal] at h ⊢ <;>
    simp [← h]

theorem Run_drain_first_witness :
    firstSignal (Run ⟨"c1"⟩ runDrainFails "print(1)").trace =
      some (.drain (some "unexpected EOF")) ∧
    ((∀ err, some "unexpected EOF" = some err →
        (Run ⟨"c1"⟩ runDrainFails "print(1)").result = .error err) ∧
      ((some "unexpected EOF" : Option GoError) = none →
        ∃ resp, (Run ⟨"c1"⟩ runDrainFails "print(1)").result = .ok resp)) :=
  ⟨by decide,
    Run_drain_first ⟨"c1"⟩ runDrainFails "print(1)" (some "unexpected EOF") (by decide)⟩

/-- C8. The name is matched case-sensitively: for every name other than the
registered `python` and `py`, `startEnv` returns no environment and the error
`invalid environment: ` followed by the name, and performs no effect, so no
provider call. -/
theorem startEnv_unregistered (w : ProvWorld) (name : String)
    (h₁ : name ≠ "python") (h₂ : name ≠ "py") :
    (startEnv w name).result = .error ("invalid environment: " ++ name) ∧
    (startEnv w name).trace = [] ∧
    (startEnv w name).trace.any isProviderCall = false := by
  simp [startEnv, h₁, h₂]

theorem startEnv_unregistered_witness :
    ("Python" ≠ "python" ∧ "Python" ≠ "py") ∧
    ((startEnv provOk "Python").result = .error ("invalid environment: " ++ "Python") ∧
      (startEnv provOk "Python").trace = [] ∧
      (startEnv provOk "Python").trace.any isProviderCall = false) ∧
    ((startEnv provOk "PY").result = .error ("invalid environment: " ++ "PY") ∧
      (startEnv provOk "PY").trace = [] ∧
      (startEnv provOk "PY").trace.any isProviderCall = false) ∧
    ((startEnv provOk "").result = .error ("invalid environment: " ++ "") ∧
      (startEnv provOk "").trace = [] ∧
      (startEnv provOk "").trace.any isProviderCall = false) :=
  ⟨⟨by decide, by decide⟩,
    startEnv_unregistered provOk "Python" (by decide) (by decide),
    startEnv_unregistered provOk "PY" (by decide) (by decide),
    startEnv_unregistered provOk "" (by decide) (by decide)⟩

/-- C10. With a non-empty preshared key, a decoded request whose key differs
from it gets status 401 and nothing else happens: no call of `startEnv`, `Run`
or `Cleanup`; a request that reaches `startEnv` has a key equal to the
preshared key. -/
theorem main_rejects_other_keys (psk : String) (e : evalRequest) (w : World)
    (hpsk : psk ≠ "") :
    (e.Key ≠ psk →
      main psk (.ok e) w = .ok [.writeError 401 "permission denied; invalid key"]) ∧
    (∀ t, main psk (.ok e) w = .ok t →
      ∀ name, Event.callStartEnv name ∈ t → e.Key = psk) := by
  constructor
  · intro hkey
    simp [main, handler, hpsk, hkey]
  · intro t ht name hmem
    by_contra hkey
    simp [main, handler, hpsk, hkey] at ht
    subst ht
    simp at hmem

theorem main_rejects_other_keys_witness :
    "s3cret" ≠ "" ∧
    (("guess" ≠ "s3cret" →
      main "s3cret" (.ok ⟨"guess", "python", "print(1)"⟩) ⟨provOk, runHi, cleanupOk⟩ =
        .ok [.writeError 401 "permission denied; invalid key"]) ∧
    (∀ t, main "s3cret" (.ok ⟨"guess", "python", "print(1)"⟩)
        ⟨provOk, runHi, cleanupOk⟩ = .ok t →
      ∀ name, Event.callStartEnv name ∈ t → "guess" = "s3cret")) :=
  ⟨by decide,
    main_rejects_other_keys "s3cret" ⟨"guess", "python", "print(1)"⟩
      ⟨provOk, runHi, cleanupOk⟩ (by decide)⟩

/-- C5, counterexample. `Run` is called on the unit `c1` and returns at the
deadline; a second call on the same instance is not rejected: it attaches to
`c1` again, streams its body and returns a response. -/
theorem runTwice_second_call_accepted :
    (runTwice ⟨"c1"⟩ runDeadline runHi "while True: pass" "print(1)").1.result =
      .ok ⟨[104], [], true⟩ ∧
    (runTwice ⟨"c1"⟩ runDeadline runHi "while True: pass" "print(1)").2.result =
      .ok ⟨[104, 105, 10], [33], false⟩ ∧
    Event.containerAttach "c1" ∈
      (runTwice ⟨"c1"⟩ runDeadline runHi "while True: pass" "print(1)").2.trace ∧
    Event.connWrite "print(1)" ∈
      (runTwice ⟨"c1"⟩ runDeadline runHi "while True: pass" "print(1)").2.trace :=
  ⟨rfl, rfl, by decide, by decide⟩

/-- C5, amended. `Run` keeps no record of earlier calls: whatever the first
call did, a second call of `Run` on the same instance attaches to the same
unit as soon as the provider client is obtained, and streams its body as soon
as that attach succeeds.  Single use is kept by the caller only: the request
handler calls `Run` at most once. -/
theorem runTwice_second_call_attaches (e : pythonEnv) (w₁ w₂ : RunWorld)
    (b₁ b₂ : String) (hc : w₂.client = none) :
    Event.containerAttach e.dockerID ∈ (runTwice e w₁ w₂ b₁ b₂).2.trace ∧
    (w₂.attach = none →
      Event.goDrain ∈ (runTwice e w₁ w₂ b₁ b₂).2.trace ∧
      Event.connWrite b₂ ∈ (runTwice e w₁ w₂ b₁ b₂).2.trace) ∧
    (∀ psk decoded w, runCalls (handler psk decoded w) ≤ 1) := by
  obtain ⟨c, a, wr, cw, fr, de, sel⟩ := w₂
  simp only at hc
  subst hc
  refine ⟨?_, ?_, ?_⟩
  · cases a <;> cases wr <;> cases cw <;> cases sel <;> cases de <;>
      simp [runTwice, Run, closeWriteTrace]
  · intro ha
    simp only at ha
    subst ha
    cases wr <;> cases cw <;> cases sel <;> cases de <;>
      simp [runTwice, Run, closeWriteTrace]
  · intro psk decoded w
    cases decoded with
    | error err => simp [handler, runCalls]
    | ok rq =>
      by_cases hk : rq.Key = psk
      · have h3 := (startEnv_trace_no_cleanup w.prov rq.Env).2.2
        simp only [runCalls] at h3
        cases hres : (startEnv w.prov rq.Env).result with
        | error err =>
          rw [handler_startEnv_error psk rq w err hk hres]
          simp [runCalls, List.filter_append, h3]
        | ok env =>
          have hr := (Run_trace_no_cleanup env w.run rq.Contents).2.2
          have hcl := (Cleanup_trace env w.cleanup).2.1
          simp only [runCalls] at hr hcl
          cases hrr : (Run env w.run rq.Contents).result with
          | error err =>
            rw [handler_Run_error psk rq w env err hk hres hrr]
            simp [runCalls, List.filter_append, h3, hr, hcl]
          | ok resp =>
            rw [handler_Run_ok psk rq w env resp hk hres hrr]
            simp [runCalls, List.filter_append, h3, hr, hcl]
      · rw [handler_wrong_key psk rq w hk]
        simp [runCalls]

theorem runTwice_second_call_attaches_witness :
    runHi.client = none ∧
    (Event.containerAttach "c1" ∈
        (runTwice ⟨"c1"⟩ runDeadline runHi "while True: pass" "print(1)").2.trace ∧
      (runHi.attach = none →
        Event.goDrain ∈
          (runTwice ⟨"c1"⟩ runDeadline runHi "while True: pass" "print(1)").2.trace ∧
        Event.connWrite "print(1)" ∈
          (runTwice ⟨"c1"⟩ runDeadline runHi "while True: pass" "print(1)").2.trace) ∧
      (∀ psk decoded w, runCalls (handler psk decoded w) ≤ 1)) :=
  ⟨rfl, runTwice_second_call_attaches ⟨"c1"⟩ runDeadline runHi
    "while True: pass" "print(1)" rfl⟩

/-- C6, counterexample. An authenticated request for `python`: when the
provider creates the unit `c1` and fails to start it, the handler answers 400
and neither `Cleanup` nor the provider `Stop` is ever called for `c1`; when the
provider fails to create a unit, `Cleanup` is not called either; and when the
run succeeds but `Cleanup` obtains no provider client, `Cleanup` is called once
and the provider `Stop` not at all. -/
theorem handler_provisioning_failure_skips_cleanup :
    (provStartFails.create = .ok "c1" ∧
      Event.containerStart "c1" ∈
        handler "s3cret" (.ok reqHi) ⟨provStartFails, runHi, cleanupOk⟩ ∧
      cleanupCalls (handler "s3cret" (.ok reqHi) ⟨provStartFails, runHi, cleanupOk⟩) = 0 ∧
      stopCalls (handler "s3cret" (.ok reqHi) ⟨provStartFails, runHi, cleanupOk⟩) = 0) ∧
    cleanupCalls (handler "s3cret" (.ok reqHi) ⟨provCreateFails, runHi, cleanupOk⟩) = 0 ∧
    (cleanupCalls (handler "s3cret" (.ok reqHi) ⟨provOk, runHi, cleanupNoClient⟩) = 1 ∧
      stopCalls (handler "s3cret" (.ok reqHi) ⟨provOk, runHi, cleanupNoClient⟩) = 0) :=
  ⟨⟨rfl, by decide, by decide, by decide⟩, by decide, by decide, by decide⟩

/-- C6, amended. For every authenticated request whose provisioning succeeds,
`Cleanup` is called exactly once, for the unit created for that request,
whether `Run` succeeds, fails or times out; the provider `Stop` is called at
most once, and exactly once, for that unit, when `Cleanup` obtains a provider
client; otherwise the client error is logged and `Stop` is not called.  When
provisioning fails before a unit exists (name not registered,
no provider client, create refused), neither `Cleanup` nor `Stop` is called. -/
theorem handler_cleanup_once (psk : String) (rq : evalRequest) (w : World)
    (hk : rq.Key = psk) :
    (∀ env, (startEnv w.prov rq.Env).result = .ok env →
      w.prov.create = .ok env.dockerID ∧
      (handler psk (.ok rq) w).filter isGoCleanup = [.goCleanup env.dockerID] ∧
      cleanupCalls (handler psk (.ok rq) w) = 1 ∧
      stopCalls (handler psk (.ok rq) w) ≤ 1 ∧
      (w.cleanup.client = none →
        (handler psk (.ok rq) w).filter isContainerStop =
          [.containerStop env.dockerID 5]) ∧
      (∀ err, w.cleanup.client = some err →
        stopCalls (handler psk (.ok rq) w) = 0 ∧
        Event.logError "docker client error" err ∈ handler psk (.ok rq) w)) ∧
    ((¬ (rq.Env = "python" ∨ rq.Env = "py") ∨ w.prov.client ≠ none ∨
        (∃ err, w.prov.create = .error err)) →
      cleanupCalls (handler psk (.ok rq) w) = 0 ∧
      stopCalls (handler psk (.ok rq) w) = 0) := by
  have hs := startEnv_trace_no_cleanup w.prov rq.Env
  constructor
  · intro env hres
    have hr := Run_trace_no_cleanup env w.run rq.Contents
    have hcl := Cleanup_trace env w.cleanup
    have hshape : ∃ mid : List Event, mid.filter isGoCleanup = [] ∧
        mid.filter isContainerStop = [] ∧
        handler psk (.ok rq) w =
          [.withTimeout 20, .callStartEnv rq.Env] ++ (startEnv w.prov rq.Env).trace ++
            [.callRun env.dockerID rq.Contents] ++ (Run env w.run rq.Contents).trace ++
            mid ++ ([.goCleanup env.dockerID, .cancel] ++ Cleanup env w.cleanup) := by
      cases hrr : (Run env w.run rq.Contents).result with
      | error err =>
        exact ⟨[.writeError 400 ("error running code: " ++ err)], rfl, rfl,
          handler_Run_error psk rq w env err hk hres hrr⟩
      | ok resp =>
        exact ⟨[.encodeResponse resp], rfl, rfl,
          handler_Run_ok psk rq w env resp hk hres hrr⟩
    obtain ⟨mid, hm₁, hm₂, heq⟩ := hshape
    refine ⟨(startEnv_ok w.prov rq.Env env hres).2.2.1, ?_, ?_, ?_, ?_, ?_⟩
    · rw [heq]
      simp [List.filter_append, hs.1, hr.1, hm₁, hcl.1, isGoCleanup]
    · rw [cleanupCalls, heq]
      simp [List.filter_append, hs.1, hr.1, hm₁, hcl.1, isGoCleanup]
    · rw [stopCalls, heq]
      simpa [List.filter_append, hs.2.1, hr.2.1, hm₂, isContainerStop] using hcl.2.2.1
    · intro hcc
      rw [heq]
      simp [List.filter_append, hs.2.1, hr.2.1, hm₂, hcl.2.2.2 hcc, isContainerStop]
    · intro err hcc
      rw [stopCalls, heq, Cleanup_no_client env w.cleanup err hcc]
      constructor
      · simp [List.filter_append, hs.2.1, hr.2.1, hm₂, isContainerStop]
      · simp
  · intro hno
    cases hres : (startEnv w.prov rq.Env).result with
    | error err =>
      rw [cleanupCalls, stopCalls, handler_startEnv_error psk rq w err hk hres]
      simp [List.filter_append, hs.1, hs.2.1, isGoCleanup, isContainerStop]
    | ok env =>
      obtain ⟨hn, hc, hcr, -⟩ := startEnv_ok w.prov rq.Env env hres
      rcases hno with h | h | ⟨err, h⟩
      · exact absurd hn h
      · exact absurd hc h
      · rw [hcr] at h
        cases h

theorem handler_cleanup_once_witness :
    reqHi.Key = "s3cret" ∧
    ((∀ env, (startEnv (World.mk provOk runDeadline cleanupOk).prov reqHi.Env).result =
        .ok env →
      (World.mk provOk runDeadline cleanupOk).prov.create = .ok env.dockerID ∧
      (handler "s3cret" (.ok reqHi) ⟨provOk, runDeadline, cleanupOk⟩).filter isGoCleanup =
        [.goCleanup env.dockerID] ∧
      cleanupCalls (handler "s3cret" (.ok reqHi) ⟨provOk, runDeadline, cleanupOk⟩) = 1 ∧
      stopCalls (handler "s3cret" (.ok reqHi) ⟨provOk, runDeadline, cleanupOk⟩) ≤ 1 ∧
      ((World.mk provOk runDeadline cleanupOk).cleanup.client = none →
        (handler "s3cret" (.ok reqHi) ⟨provOk, runDeadline, cleanupOk⟩).filter
          isContainerStop = [.containerStop env.dockerID 5]) ∧
      (∀ err, (World.mk provOk runDeadline cleanupOk).cleanup.client = some err →
        stopCalls (handler "s3cret" (.ok reqHi) ⟨provOk, runDeadline, cleanupOk⟩) = 0 ∧
        Event.logError "docker client error" err ∈
          handler "s3cret" (.ok reqHi) ⟨provOk, runDeadline, cleanupOk⟩)) ∧
    ((¬ (reqHi.Env = "python" ∨ reqHi.Env = "py") ∨
        (World.mk provOk runDeadline cleanupOk).prov.client ≠ none ∨
        (∃ err, (World.mk provOk runDeadline cleanupOk).prov.create = .error err)) →
      cleanupCalls (handler "s3cret" (.ok reqHi) ⟨provOk, runDeadline, cleanupOk⟩) = 0 ∧
      stopCalls (handler "s3cret" (.ok reqHi) ⟨provOk, runDeadline, cleanupOk⟩) = 0)) :=
  ⟨rfl, handler_cleanup_once "s3cret" reqHi ⟨provOk, runDeadline, cleanupOk⟩ rfl⟩

/-- C7, at the failing input. The provider client and the attach succeed, the
drain task is started, and the write of the body fails: `Run` returns the
write error right after the write; its trace holds no receive from `copyErr`,
so the drain task stays blocked on its send. -/
theorem Run_write_failure_leaves_drain_blocked :
    (Run ⟨"c1"⟩ runWriteFails "print(1)").result =
      .error "error writing program to container: broken pipe" ∧
    (Run ⟨"c1"⟩ runWriteFails "print(1)").trace =
      [.newClient, .containerAttach "c1", .goDrain, .connWrite "print(1)"] ∧
    drainLaunched (Run ⟨"c1"⟩ runWriteFails "print(1)").trace = true ∧
    drainJoined (Run ⟨"c1"⟩ runWriteFails "print(1)").trace = false :=
  ⟨rfl, by decide, by decide, by decide⟩

end Eval
